import Mathlib

/-!
Shallow embedding of `monitor.py` (a Polymarket trade monitor): the persistent
store (seen-trades table and wallet-age cache), the wallet-age resolver
`get_first_trade_timestamp`, the per-trade classification loop, and `db_prune`.
Machine integers are `Int`, Python `Decimal` values are `ℚ` (decimal parsing and
multiplication are exact), raw JSON fields are `Option String` / `Option Int`
(`none` = absent/null).  External HTTP collaborators (the wallet-history source)
are oracle parameters; the sqlite connection is modelled as a committed state
plus an uncommitted pending state, since `conn.execute` stages a write that
only `conn.commit()` makes durable.
-/

namespace Monitor

/-- Configuration read from the environment at startup (monitor.py lines 11-21).
Field names follow the module-level constants of the source. -/
structure Config where
  NEW_ACCOUNT_VALUE_THRESHOLD : ℚ
  ACCOUNT_AGE_THRESHOLD_DAYS : Int
  LARGE_TRADE_THRESHOLD : ℚ
  MIN_DELTA_THRESHOLD : ℚ
  INTERESTED_KEYWORDS : List String
  SEEN_TRADE_RETENTION_DAYS : Int
  WALLET_TS_TTL_DAYS : Int

/-- The default configuration: the values of monitor.py lines 11-21 when no
environment variable overrides them. -/
def defaultConfig : Config where
  NEW_ACCOUNT_VALUE_THRESHOLD := 8000
  ACCOUNT_AGE_THRESHOLD_DAYS := 90
  LARGE_TRADE_THRESHOLD := 30000
  MIN_DELTA_THRESHOLD := 5000
  INTERESTED_KEYWORDS :=
    ["president", "election", "fed", "politics", "macro", "trump", "venezuela",
     "maduro", "machado", "ukraine", "russia", "iran", "khamenei", "ceasefire"]
  SEEN_TRADE_RETENTION_DAYS := 21
  WALLET_TS_TTL_DAYS := 14

/-- Value of a list of decimal digits read left to right. -/
def digitsVal (l : List Char) : Nat :=
  l.foldl (fun a c => 10 * a + (c.toNat - 48)) 0

/-- The exact rational value of the decimal literal `[-]ip.fp` scaled by
`10 ^ exp` (divided by it when `expNeg`): the number a sign, an integer part,
a fraction part and an exponent denote. -/
def decimalRat (neg : Bool) (ip fp : List Char) (expNeg : Bool) (exp : Nat) : ℚ :=
  let m : Int := (digitsVal ip * 10 ^ fp.length + digitsVal fp : Nat)
  let m : Int := if neg then -m else m
  if expNeg then mkRat m (10 ^ fp.length * 10 ^ exp)
  else mkRat (m * 10 ^ exp) (10 ^ fp.length)

/-- Parse the exponent suffix (what follows `e`/`E`) and assemble the value;
`none` when the suffix is not `[sign] digits`. -/
def parseExpPart (neg : Bool) (ip fp : List Char) (l : List Char) : Option ℚ :=
  let (expNeg, l2) : Bool × List Char :=
    match l with
    | '+' :: r => (false, r)
    | '-' :: r => (true, r)
    | r => (false, r)
  let (d, rest) := l2.span Char.isDigit
  if d = [] ∨ rest ≠ [] then none
  else some (decimalRat neg ip fp expNeg (digitsVal d))

/-- Parse an unsigned decimal literal `digits [. digits] [e exp]` / `. digits
[e exp]`, the finite-number grammar accepted by Python `Decimal(str)`, carrying
an already-seen sign. -/
def parseUnsigned (neg : Bool) (l : List Char) : Option ℚ :=
  let (ip, rest) := l.span Char.isDigit
  match rest with
  | [] => if ip = [] then none else some (decimalRat neg ip [] false 0)
  | '.' :: rest2 =>
      let (fp, rest3) := rest2.span Char.isDigit
      if ip = [] ∧ fp = [] then none
      else
        match rest3 with
        | [] => some (decimalRat neg ip fp false 0)
        | e :: rest4 =>
            if e = 'e' ∨ e = 'E' then parseExpPart neg ip fp rest4 else none
  | e :: rest2 =>
      if (e = 'e' ∨ e = 'E') ∧ ip ≠ [] then parseExpPart neg ip [] rest2
      else none

/-- Parse a (possibly signed) finite decimal string exactly as
`Decimal(str(val))` would; `none` where `Decimal` raises `InvalidOperation`. -/
def parseDecimalString (s : String) : Option ℚ :=
  match s.toList with
  | '+' :: r => parseUnsigned false r
  | '-' :: r => parseUnsigned true r
  | r => parseUnsigned false r

/-- monitor.py lines 106-110: coerce a raw field to `Decimal`, with `None`,
`""`, `"None"` and unparseable values all becoming `0`. -/
def safe_decimal (val : Option String) : ℚ :=
  match val with
  | none => 0
  | some s => if s = "" ∨ s = "None" then 0 else (parseDecimalString s).getD 0

/-- The fields of a raw trade record that the classification loop reads
(monitor.py lines 162-232).  `none` models an absent or null JSON field; the
numeric fields stay raw strings because the code parses them with
`safe_decimal`.  Fields the core never branches on (`asset`, `eventSlug`,
used only for the position lookup and the link text) are omitted. -/
structure Trade where
  transactionHash : Option String := none
  timestamp : Option Int := none
  proxyWallet : Option String := none
  size : Option String := none
  price : Option String := none
  usdcSize : Option String := none
  title : Option String := none
  slug : Option String := none
  side : Option String := none
deriving DecidableEq

/-- How Python prints an optional string inside an f-string (`str(None)`). -/
def optStr : Option String → String
  | none => "None"
  | some s => s

/-- How Python prints an optional integer inside an f-string. -/
def optIntStr : Option Int → String
  | none => "None"
  | some i => toString i

/-- monitor.py line 164: the dedup key — the transaction hash when truthy,
else the composite `timestamp:wallet:size:price` f-string. -/
def tradeKey (t : Trade) : String :=
  let composite :=
    optIntStr t.timestamp ++ ":" ++ optStr t.proxyWallet ++ ":" ++
      optStr t.size ++ ":" ++ optStr t.price
  match t.transactionHash with
  | some h => if h = "" then composite else h
  | none => composite

/-- The wallet-age cache table `wallet_first_trade`: wallet → (nullable
`first_trade_ts`, `updated_ts`).  `none` means no row for that wallet. -/
def WalletCache : Type := String → Option (Option Int × Int)

/-- The two persisted tables, as visible through one sqlite connection. -/
structure Store where
  seen : String → Option Int
  wallets : WalletCache

/-- The store with both tables empty (a fresh database). -/
def emptyStore : Store where
  seen := fun _ => none
  wallets := fun _ => none

/-- monitor.py lines 55-57: does a `seen_trades` row exist for `trade_key`? -/
def db_seen_trade (st : Store) (trade_key : String) : Bool :=
  (st.seen trade_key).isSome

/-- monitor.py lines 59-63: `INSERT OR REPLACE` into `seen_trades`. -/
def db_mark_trade (st : Store) (trade_key : String) (seen_ts : Int) : Store :=
  { st with seen := fun k => if k = trade_key then some seen_ts else st.seen k }

/-- monitor.py lines 65-72: read the wallet-age row, `(None, None)` when the
wallet has no row (the `updated_ts` column itself is NOT NULL). -/
def db_get_wallet_first_ts (cache : WalletCache) (wallet : String) :
    Option Int × Option Int :=
  match cache wallet with
  | some (first_ts, updated_ts) => (first_ts, some updated_ts)
  | none => (none, none)

/-- monitor.py lines 74-78: `INSERT OR REPLACE` into `wallet_first_trade`. -/
def db_set_wallet_first_ts (cache : WalletCache) (wallet : String)
    (first_ts : Option Int) (updated_ts : Int) : WalletCache :=
  fun w => if w = wallet then some (first_ts, updated_ts) else cache w

/-- One request to the external wallet-history source
(`data-api.polymarket.com/activity`, ascending, limit 1): either a successful
response — whose earliest-trade timestamp is `none` exactly when the wallet
has no activity — or a request failure (network error, non-2xx, bad payload). -/
inductive ExtResult where
  | ok (first_ts : Option Int) : ExtResult
  | err : ExtResult
deriving DecidableEq

/-- The wallet-history source as an oracle: what one request for each wallet
would yield during this run. -/
def ExtOracle : Type := String → ExtResult

/-- Result of one resolver call: the returned timestamp, the cache afterwards,
and how many external wallet-history requests were issued. -/
structure ResolveOut where
  first_ts : Option Int
  cache : WalletCache
  extCalls : Nat

/-- monitor.py lines 94-101: the `first_ts` a request yields — the earliest
trade's timestamp on success (null when the wallet has no activity, the
empty-response case of line 98), and null on any failure (the `except` arm). -/
def extFirstTs (r : ExtResult) : Option Int :=
  match r with
  | ExtResult.ok ts => ts
  | ExtResult.err => none

/-- monitor.py lines 87-104: the wallet-age resolver.  Cache hit when the row
exists and is younger than the TTL; otherwise one external request, whose
failure is treated as a null result, and the outcome — null included — is
persisted with `updated_ts = now` before being returned. -/
def get_first_trade_timestamp (cfg : Config) (ext : ExtOracle)
    (cache : WalletCache) (wallet : String) (now : Int) : ResolveOut :=
  let refresh : ResolveOut :=
    ⟨extFirstTs (ext wallet),
      db_set_wallet_first_ts cache wallet (extFirstTs (ext wallet)) now, 1⟩
  match db_get_wallet_first_ts cache wallet with
  | (first_ts, some updated_ts) =>
      if now - updated_ts < cfg.WALLET_TS_TTL_DAYS * 86400 then
        ⟨first_ts, cache, 0⟩
      else refresh
  | (_, none) => refresh

/-- Is `pat` a contiguous sublist of `l`?  (Python's `pat in s` on strings.) -/
def listContainsAux : List Char → List Char → Bool
  | pat, [] => pat.isEmpty
  | pat, l@(_ :: tl) => pat.isPrefixOf l || listContainsAux pat tl

/-- Python `pat in s` substring test. -/
def strContains (s pat : String) : Bool :=
  listContainsAux pat.toList s.toList

/-- Python `str.lower()` on the ASCII range (`Char.toLower` per character). -/
def pyLower (s : String) : String := String.mk (s.data.map Char.toLower)

/-- monitor.py line 175: the lowercased slug, `""` when absent. -/
def slugLower (t : Trade) : String := pyLower (t.slug.getD "")

/-- monitor.py line 174: the title (default `"Unknown Market"`), lowercased as
on line 178. -/
def titleLower (t : Trade) : String := pyLower (t.title.getD "Unknown Market")

/-- monitor.py line 178: some interested keyword occurs in the slug or the
lowercased title. -/
def keywordHit (cfg : Config) (slugL titleL : String) : Bool :=
  cfg.INTERESTED_KEYWORDS.any fun k => strContains slugL k || strContains titleL k

/-- monitor.py lines 172-173: `value = usdc_size or size * price` — the parsed
`usdcSize` when it is truthy (nonzero), else the product of the parsed `size`
and `price`. -/
def tradeValue (t : Trade) : ℚ :=
  let usdc_size := safe_decimal t.usdcSize
  if usdc_size = 0 then safe_decimal t.size * safe_decimal t.price else usdc_size

/-- monitor.py line 188: the position delta — the parsed size, negated unless
the side is exactly `"BUY"`. -/
def tradeDelta (t : Trade) : ℚ :=
  if t.side = some "BUY" then safe_decimal t.size else -safe_decimal t.size

/-- monitor.py lines 168-170: `if not proxy_wallet` — the wallet field is
absent or the empty string (falsy). -/
def walletMissing (t : Trade) : Bool :=
  match t.proxyWallet with
  | none => true
  | some w => w = ""

/-- monitor.py line 194: `0 if first_ts is None else (current_time - first_ts) / 86400`. -/
def walletAgeDays (now : Int) (first_ts : Option Int) : ℚ :=
  match first_ts with
  | none => 0
  | some f => ((now - f : Int) : ℚ) / 86400

/-- monitor.py line 196: `is_new = (first_ts is None) or (age_days < ACCOUNT_AGE_THRESHOLD_DAYS)`. -/
def isNewAccount (cfg : Config) (now : Int) (first_ts : Option Int) : Bool :=
  first_ts.isNone
    || decide (walletAgeDays now first_ts < (cfg.ACCOUNT_AGE_THRESHOLD_DAYS : ℚ))

/-- Which alert a trade produced: the `WHALE` tier or the `NEW USER` tier. -/
inductive AlertTier where
  | whale : AlertTier
  | newUser : AlertTier
deriving DecidableEq

/-- monitor.py lines 201-225: the alert decision — nothing unless the absolute
position delta reaches `MIN_DELTA_THRESHOLD`; then `WHALE` when the value
reaches `LARGE_TRADE_THRESHOLD`, else `NEW USER` when the value strictly
exceeds `NEW_ACCOUNT_VALUE_THRESHOLD` and the account is new. -/
def tradeAlert (cfg : Config) (value delta : ℚ) (is_new : Bool) :
    Option AlertTier :=
  if |delta| ≥ cfg.MIN_DELTA_THRESHOLD then
    if value ≥ cfg.LARGE_TRADE_THRESHOLD then some AlertTier.whale
    else if value > cfg.NEW_ACCOUNT_VALUE_THRESHOLD ∧ is_new = true then
      some AlertTier.newUser
    else none
  else none

/-- Outcome of the loop body for one trade: the store afterwards, the alert
decision, and the number of wallet-history requests issued. -/
structure StepOut where
  store : Store
  decision : Option AlertTier
  extCalls : Nat

/-- monitor.py lines 162-232, one iteration of the classification loop:
skip (untouched) when the key is already seen or the wallet is falsy; mark
seen without alerting when no keyword matches; otherwise resolve the wallet
age, decide the alert tier, and mark seen — in every non-skipped case with
`seen_ts = int(trade.get("timestamp", current_time))`. -/
def processTrade (cfg : Config) (ext : ExtOracle) (now : Int) (st : Store)
    (t : Trade) : StepOut :=
  if db_seen_trade st (tradeKey t) then ⟨st, none, 0⟩
  else if walletMissing t then ⟨st, none, 0⟩
  else if keywordHit cfg (slugLower t) (titleLower t) then
    let r := get_first_trade_timestamp cfg ext st.wallets (t.proxyWallet.getD "") now
    let d := tradeAlert cfg (tradeValue t) (tradeDelta t) (isNewAccount cfg now r.first_ts)
    ⟨db_mark_trade { st with wallets := r.cache } (tradeKey t) (t.timestamp.getD now), d, r.extCalls⟩
  else
    ⟨db_mark_trade st (tradeKey t) (t.timestamp.getD now), none, 0⟩

/-- Outcome of a whole classification pass: the store afterwards, one alert
decision per input trade in input order, and the external requests issued. -/
structure RunOut where
  store : Store
  decisions : List (Option AlertTier)
  extCalls : Nat

/-- monitor.py lines 162-232: the classification loop over a fetched batch,
threading the store left to right. -/
def classify (cfg : Config) (ext : ExtOracle) (now : Int) :
    Store → List Trade → RunOut
  | st, [] => ⟨st, [], 0⟩
  | st, t :: ts =>
      let o := processTrade cfg ext now st t
      let r := classify cfg ext now o.store ts
      ⟨r.store, o.decision :: r.decisions, o.extCalls + r.extCalls⟩

/-- monitor.py lines 80-85 without the commit: delete the `seen_trades` rows
with `seen_ts < now - retention` and the `wallet_first_trade` rows with
`updated_ts < now - ttl`. -/
def pruneStore (cfg : Config) (st : Store) (now_ts : Int) : Store where
  seen := fun k =>
    match st.seen k with
    | some ts =>
        if ts < now_ts - cfg.SEEN_TRADE_RETENTION_DAYS * 86400 then none
        else some ts
    | none => none
  wallets := fun w =>
    match st.wallets w with
    | some (first_ts, updated_ts) =>
        if updated_ts < now_ts - cfg.WALLET_TS_TTL_DAYS * 86400 then none
        else some (first_ts, updated_ts)
    | none => none

/-- A sqlite connection: the durable committed state and the pending state
that `conn.execute` writes reach before any `conn.commit()`.  Reads through
the connection see `pending`; a crash keeps only `committed`. -/
structure Conn where
  committed : Store
  pending : Store

/-- monitor.py lines 33-37: open the database — both views start at the
durable state. -/
def db_connect (durable : Store) : Conn := ⟨durable, durable⟩

/-- `conn.commit()`: the pending writes become durable. -/
def Conn.commit (c : Conn) : Conn := ⟨c.pending, c.pending⟩

/-- A crash: everything not committed is lost. -/
def Conn.crash (c : Conn) : Store := c.committed

/-- monitor.py lines 80-85 as executed on the connection: the two DELETEs
followed by `conn.commit()` (the only commit inside a helper). -/
def db_prune (cfg : Config) (c : Conn) (now_ts : Int) : Conn :=
  Conn.commit { c with pending := pruneStore cfg c.pending now_ts }

/-- monitor.py lines 162-249: one whole run over an already-fetched batch —
the classification loop (staged writes), then `db_prune` (which commits),
then the final `conn.commit()`. -/
def monitor_run (cfg : Config) (ext : ExtOracle) (now : Int) (c : Conn)
    (trades : List Trade) : Conn :=
  let afterLoop : Conn :=
    { c with pending := (classify cfg ext now c.pending trades).store }
  Conn.commit (db_prune cfg afterLoop now)

/-! ### Helper lemmas about the classification loop -/

theorem db_mark_trade_seen_self (st : Store) (k : String) (ts : Int) :
    (db_mark_trade st k ts).seen k = some ts := by
  simp [db_mark_trade]

theorem db_mark_trade_seen_mono (st : Store) (k' : String) (ts : Int)
    (k : String) (h : (st.seen k).isSome = true) :
    ((db_mark_trade st k' ts).seen k).isSome = true := by
  simp only [db_mark_trade]
  by_cases hk : k = k' <;> simp [hk, h]

theorem processTrade_of_seen (cfg : Config) (ext : ExtOracle) (now : Int)
    (st : Store) (t : Trade) (h : db_seen_trade st (tradeKey t) = true) :
    processTrade cfg ext now st t = ⟨st, none, 0⟩ := by
  simp [processTrade, h]

theorem processTrade_of_walletMissing (cfg : Config) (ext : ExtOracle)
    (now : Int) (st : Store) (t : Trade) (h : walletMissing t = true) :
    processTrade cfg ext now st t = ⟨st, none, 0⟩ := by
  unfold processTrade
  split_ifs <;> rfl

theorem processTrade_seen_mono (cfg : Config) (ext : ExtOracle) (now : Int)
    (st : Store) (t : Trade) (k : String) (h : (st.seen k).isSome = true) :
    (((processTrade cfg ext now st t).store).seen k).isSome = true := by
  unfold processTrade
  split_ifs <;>
    first
      | exact h
      | exact db_mark_trade_seen_mono _ _ _ _ h

theorem classify_seen_mono (cfg : Config) (ext : ExtOracle) (now : Int)
    (b : List Trade) (st : Store) (k : String)
    (h : (st.seen k).isSome = true) :
    (((classify cfg ext now st b).store).seen k).isSome = true := by
  induction b generalizing st with
  | nil => exact h
  | cons u rest ih =>
      exact ih _ (processTrade_seen_mono cfg ext now st u k h)

theorem processTrade_marks (cfg : Config) (ext : ExtOracle) (now : Int)
    (st : Store) (t : Trade) (hw : walletMissing t = false) :
    (((processTrade cfg ext now st t).store).seen (tradeKey t)).isSome = true := by
  unfold processTrade
  split_ifs with h1 h2 h3
  · simpa [db_seen_trade] using h1
  · exact absurd h2 (by simp [hw])
  · simp [db_mark_trade_seen_self]
  · simp [db_mark_trade_seen_self]

theorem classify_mem_marks (cfg : Config) (ext : ExtOracle) (now : Int)
    (b : List Trade) (st : Store) (t : Trade) (ht : t ∈ b)
    (hw : walletMissing t = false) :
    (((classify cfg ext now st b).store).seen (tradeKey t)).isSome = true := by
  induction b generalizing st with
  | nil => cases ht
  | cons u rest ih =>
      rcases List.mem_cons.mp ht with rfl | hmem
      · exact classify_seen_mono cfg ext now rest _ _
          (processTrade_marks cfg ext now st t hw)
      · exact ih _ hmem

theorem classify_skips (cfg : Config) (ext : ExtOracle) (now : Int) (t : Trade)
    (b : List Trade) (st : Store)
    (h : (st.seen (tradeKey t)).isSome = true ∨ walletMissing t = true) :
    ∀ i (hi : i < b.length), b.get ⟨i, hi⟩ = t →
      (classify cfg ext now st b).decisions[i]? = some none := by
  induction b generalizing st with
  | nil => intro i hi; exact absurd hi (by simp)
  | cons u rest ih =>
      intro i hi hget
      match i with
      | 0 =>
          have hu : u = t := hget
          subst hu
          rcases h with hseen | hwm
          · have := processTrade_of_seen cfg ext now st u
              (by simpa [db_seen_trade] using hseen)
            simp [classify, this]
          · have := processTrade_of_walletMissing cfg ext now st u hwm
            simp [classify, this]
      | i + 1 =>
          have hrest : (st.seen (tradeKey t)).isSome = true ∨ walletMissing t = true →
              (((processTrade cfg ext now st u).store).seen (tradeKey t)).isSome = true
                ∨ walletMissing t = true := by
            rintro (hseen | hwm)
            · exact Or.inl (processTrade_seen_mono cfg ext now st u _ hseen)
            · exact Or.inr hwm
          have hi' : i < rest.length := Nat.lt_of_succ_lt_succ (by simpa using hi)
          have := ih _ (hrest h) i hi' hget
          simpa [classify] using this

theorem classify_decisions_length (cfg : Config) (ext : ExtOracle) (now : Int)
    (b : List Trade) (st : Store) :
    (classify cfg ext now st b).decisions.length = b.length := by
  induction b generalizing st with
  | nil => rfl
  | cons u rest ih => simp [classify, ih]

/-! ### Concrete sample data for witnesses and counterexamples -/

/-- A wallet-history oracle that confirms "no prior activity" for every wallet. -/
def extNoHistory : ExtOracle := fun _ => ExtResult.ok none

/-- A wallet-history oracle whose every request fails. -/
def extFailing : ExtOracle := fun _ => ExtResult.err

/-- A keyword-matching trade whose value clears `LARGE_TRADE_THRESHOLD` and
whose size clears `MIN_DELTA_THRESHOLD`. -/
def sampleWhale : Trade :=
  { transactionHash := some "0xaa", timestamp := some 1000,
    proxyWallet := some "w10", usdcSize := some "40000", size := some "6000",
    price := some "0.5", title := some "Fed decision", slug := some "fed-rate",
    side := some "BUY" }

/-- A keyword-matching trade from a fresh wallet: value above
`NEW_ACCOUNT_VALUE_THRESHOLD` but below `LARGE_TRADE_THRESHOLD`, size above
`MIN_DELTA_THRESHOLD`. -/
def sampleNewUser : Trade :=
  { transactionHash := some "0xbb", timestamp := some 1000,
    proxyWallet := some "wn", usdcSize := some "9000", size := some "6000",
    price := some "0.5", title := some "Fed decision", slug := some "fed-rate",
    side := some "BUY" }

/-- A trade with no `proxyWallet` field at all. -/
def sampleNoWallet : Trade :=
  { transactionHash := some "0xbeef", timestamp := some 1000,
    proxyWallet := none, usdcSize := some "40000", size := some "6000",
    price := some "0.5", title := some "Fed decision", slug := some "fed-rate",
    side := some "BUY" }

/-- A trade matching no interested keyword. -/
def sampleFiltered : Trade :=
  { transactionHash := some "0xc3", timestamp := some 100,
    proxyWallet := some "w3", usdcSize := some "40000", size := some "6000",
    price := some "0.5", title := some "Quiet market", slug := some "quiet",
    side := some "BUY" }

/-- A keyword-matching trade from a fresh wallet whose value exceeds
`NEW_ACCOUNT_VALUE_THRESHOLD` while its size stays below
`MIN_DELTA_THRESHOLD`. -/
def sampleBelowDelta : Trade :=
  { transactionHash := some "0xc5", timestamp := some 1000,
    proxyWallet := some "w5", usdcSize := some "9000", size := some "10",
    price := some "900", title := some "Trump wins", slug := some "trump-wins",
    side := some "BUY" }

/-! ### C1 — seen trades are skipped and never re-alerted -/

/-- **C1.** A trade whose `trade_key` already has a `seen_trades` row is
skipped entirely: the store is left untouched, no alert is produced and no
external call is made.  Consequently, a trade presented in one `classify`
call never yields an alert at any of its occurrences in a second `classify`
call over the resulting store. -/
theorem seen_trade_never_realerted (cfg : Config) (ext : ExtOracle) (now : Int) :
    (∀ (st : Store) (t : Trade), db_seen_trade st (tradeKey t) = true →
        processTrade cfg ext now st t = ⟨st, none, 0⟩) ∧
    (∀ (st : Store) (b1 b2 : List Trade) (t : Trade), t ∈ b1 →
        ∀ i (hi : i < b2.length), b2.get ⟨i, hi⟩ = t →
          (classify cfg ext now (classify cfg ext now st b1).store
              b2).decisions[i]? = some none) := by
  refine ⟨fun st t h => processTrade_of_seen cfg ext now st t h, ?_⟩
  intro st b1 b2 t ht i hi hget
  apply classify_skips cfg ext now t b2 _ _ i hi hget
  by_cases hw : walletMissing t
  · exact Or.inr hw
  · exact Or.inl (classify_mem_marks cfg ext now b1 st t ht
      (Bool.not_eq_true _ ▸ hw))

/-- Witness for C1: a concrete already-seen trade is skipped with the store
untouched, and a trade classified once yields no alert when the batch is
classified again over the resulting store. -/
theorem seen_trade_never_realerted_witness :
    processTrade defaultConfig extNoHistory 1000
        (db_mark_trade emptyStore "0xaa" 5) sampleWhale =
      ⟨db_mark_trade emptyStore "0xaa" 5, none, 0⟩ ∧
    (classify defaultConfig extNoHistory 1000
        (classify defaultConfig extNoHistory 1000 emptyStore
            [sampleWhale]).store [sampleWhale]).decisions[0]? = some none := by
  constructor
  · exact (seen_trade_never_realerted defaultConfig extNoHistory 1000).1 _ _
      (by decide)
  · exact (seen_trade_never_realerted defaultConfig extNoHistory 1000).2
      emptyStore [sampleWhale] [sampleWhale] sampleWhale (by simp) 0
      (by decide) rfl

/-! ### C2 — marking processed trades as seen -/

/-- Counterexample to C2 as stated: `sampleNoWallet` is in the batch and not
already seen, yet after the classify pass its `trade_key` has no
`seen_trades` row — the loop skips a trade with a falsy `proxyWallet` before
ever reaching `db_mark_trade`. -/
theorem unseen_trade_without_wallet_not_marked :
    db_seen_trade emptyStore (tradeKey sampleNoWallet) = false ∧
    (classify defaultConfig extNoHistory 1000 emptyStore
        [sampleNoWallet]).store.seen (tradeKey sampleNoWallet) = none := by
  decide

/-- **C2 (amended).** Every batch trade with a truthy `proxyWallet` has a
`seen_trades` row for its `trade_key` once the classify pass is over,
whatever the alert outcome — keyword-filtered trades included; a trade whose
`proxyWallet` is absent or empty is instead skipped without being marked. -/
theorem classified_trades_marked_seen (cfg : Config) (ext : ExtOracle)
    (now : Int) :
    (∀ (st : Store) (b : List Trade) (t : Trade), t ∈ b →
        walletMissing t = false →
        (((classify cfg ext now st b).store).seen (tradeKey t)).isSome = true) ∧
    (∀ (st : Store) (t : Trade), walletMissing t = true →
        processTrade cfg ext now st t = ⟨st, none, 0⟩) :=
  ⟨fun st b t ht hw => classify_mem_marks cfg ext now b st t ht hw,
   fun st t hw => processTrade_of_walletMissing cfg ext now st t hw⟩

/-- Witness for C2 (amended): the keyword-filtered trade ends up marked seen,
and the wallet-less trade is skipped with the store untouched. -/
theorem classified_trades_marked_seen_witness :
    (((classify defaultConfig extNoHistory 1000 emptyStore
        [sampleFiltered]).store).seen (tradeKey sampleFiltered)).isSome = true ∧
    processTrade defaultConfig extNoHistory 1000 emptyStore sampleNoWallet =
      ⟨emptyStore, none, 0⟩ :=
  ⟨(classified_trades_marked_seen defaultConfig extNoHistory 1000).1
      emptyStore [sampleFiltered] sampleFiltered (by simp) rfl,
   (classified_trades_marked_seen defaultConfig extNoHistory 1000).2
      emptyStore sampleNoWallet rfl⟩

/-! ### C3 — (non-)durability of per-trade marks -/

/-- **C3.** Evaluation at the failing input: `db_mark_trade` runs per trade,
so after the loop over `[sampleFiltered]` the mark is in the connection's
pending state — but `db_mark_trade` issues no commit, so the committed state
a crash preserves has no row and a run restarted from it still sees the
trade as unseen; the mark becomes durable only through the end-of-run
`db_prune`/`conn.commit()`. -/
theorem mark_seen_not_durable_before_commit :
    db_seen_trade
        (classify defaultConfig extNoHistory 100 emptyStore
          [sampleFiltered]).store (tradeKey sampleFiltered) = true ∧
    Conn.crash
        { committed := (db_connect emptyStore).committed,
          pending := (classify defaultConfig extNoHistory 100
              (db_connect emptyStore).pending [sampleFiltered]).store } =
      emptyStore ∧
    db_seen_trade
        (db_connect (Conn.crash
          { committed := (db_connect emptyStore).committed,
            pending := (classify defaultConfig extNoHistory 100
                (db_connect emptyStore).pending [sampleFiltered]).store })).pending
        (tradeKey sampleFiltered) = false ∧
    db_seen_trade
        (monitor_run defaultConfig extNoHistory 100 (db_connect emptyStore)
          [sampleFiltered]).committed (tradeKey sampleFiltered) = true := by
  refine ⟨by decide, rfl, by decide, by decide⟩

/-! ### Resolver lemmas and the claims about the wallet-age cache -/

theorem get_first_trade_timestamp_of_fresh (cfg : Config) (ext : ExtOracle)
    (cache : WalletCache) (wallet : String) (now : Int) (f : Option Int)
    (u : Int) (h : cache wallet = some (f, u))
    (hf : now - u < cfg.WALLET_TS_TTL_DAYS * 86400) :
    get_first_trade_timestamp cfg ext cache wallet now = ⟨f, cache, 0⟩ := by
  simp [get_first_trade_timestamp, db_get_wallet_first_ts, h, hf]

theorem get_first_trade_timestamp_of_stale (cfg : Config) (ext : ExtOracle)
    (cache : WalletCache) (wallet : String) (now : Int) (f : Option Int)
    (u : Int) (h : cache wallet = some (f, u))
    (hf : ¬(now - u < cfg.WALLET_TS_TTL_DAYS * 86400)) :
    get_first_trade_timestamp cfg ext cache wallet now =
      ⟨extFirstTs (ext wallet),
        db_set_wallet_first_ts cache wallet (extFirstTs (ext wallet)) now, 1⟩ := by
  simp [get_first_trade_timestamp, db_get_wallet_first_ts, h, hf]

theorem get_first_trade_timestamp_of_unknown (cfg : Config) (ext : ExtOracle)
    (cache : WalletCache) (wallet : String) (now : Int)
    (h : cache wallet = none) :
    get_first_trade_timestamp cfg ext cache wallet now =
      ⟨extFirstTs (ext wallet),
        db_set_wallet_first_ts cache wallet (extFirstTs (ext wallet)) now, 1⟩ := by
  simp [get_first_trade_timestamp, db_get_wallet_first_ts, h]

theorem db_set_wallet_first_ts_self (cache : WalletCache) (wallet : String)
    (f : Option Int) (u : Int) :
    db_set_wallet_first_ts cache wallet f u wallet = some (f, u) := by
  simp [db_set_wallet_first_ts]

/-- A wallet cache holding one row: wallet `"w"` resolved to first-trade
timestamp 50 at time 0. -/
def sampleCache : WalletCache :=
  fun w => if w = "w" then some (some 50, 0) else none

/-- A wallet cache holding one confirmed-no-history row for wallet `"wn"`,
refreshed at time 5. -/
def sampleNullCache : WalletCache :=
  fun w => if w = "wn" then some (none, 5) else none

/-! ### C4 — at most one external call per wallet per TTL window -/

/-- **C4.** Two resolutions of the same wallet within the TTL window — the
second falling inside the TTL of the cache row as it stands after the first —
issue at most one external request in total and return the same
`first_trade_ts`; and whenever the row exists (`updated_ts` non-null) with
`now - updated_ts < ttl`, the cached value — a cached null included — is
returned with no external call and the cache untouched. -/
theorem resolver_cached_within_ttl (cfg : Config) (ext : ExtOracle)
    (cache : WalletCache) (wallet : String) (t1 t2 : Int)
    (hu : ∀ f u,
      (get_first_trade_timestamp cfg ext cache wallet t1).cache wallet = some (f, u) →
        t2 - u < cfg.WALLET_TS_TTL_DAYS * 86400) :
    ((get_first_trade_timestamp cfg ext cache wallet t1).extCalls +
        (get_first_trade_timestamp cfg ext
          (get_first_trade_timestamp cfg ext cache wallet t1).cache wallet
          t2).extCalls ≤ 1) ∧
    (get_first_trade_timestamp cfg ext
        (get_first_trade_timestamp cfg ext cache wallet t1).cache wallet
        t2).first_ts =
      (get_first_trade_timestamp cfg ext cache wallet t1).first_ts ∧
    (∀ f u now, cache wallet = some (f, u) →
        now - u < cfg.WALLET_TS_TTL_DAYS * 86400 →
        get_first_trade_timestamp cfg ext cache wallet now = ⟨f, cache, 0⟩) := by
  have key :
      get_first_trade_timestamp cfg ext
          (get_first_trade_timestamp cfg ext cache wallet t1).cache wallet t2 =
        ⟨(get_first_trade_timestamp cfg ext cache wallet t1).first_ts,
          (get_first_trade_timestamp cfg ext cache wallet t1).cache, 0⟩ ∧
      (get_first_trade_timestamp cfg ext cache wallet t1).extCalls ≤ 1 := by
    rcases hrow : cache wallet with _ | ⟨f, u⟩
    · -- no row: the first call refreshes, the second hits the persisted row
      have h1 := get_first_trade_timestamp_of_unknown cfg ext cache wallet t1 hrow
      have hc : (get_first_trade_timestamp cfg ext cache wallet t1).cache wallet =
          some (extFirstTs (ext wallet), t1) := by
        rw [h1]
        exact db_set_wallet_first_ts_self cache wallet (extFirstTs (ext wallet)) t1
      have h2 := get_first_trade_timestamp_of_fresh cfg ext _ wallet t2
        (extFirstTs (ext wallet)) t1 hc (hu (extFirstTs (ext wallet)) t1 hc)
      refine ⟨?_, by rw [h1]⟩
      rw [h2, h1]
    · by_cases hf : t1 - u < cfg.WALLET_TS_TTL_DAYS * 86400
      · -- fresh row: both calls hit
        have h1 := get_first_trade_timestamp_of_fresh cfg ext cache wallet t1 f u hrow hf
        have h2 := get_first_trade_timestamp_of_fresh cfg ext cache wallet t2 f u
          hrow (hu f u (by rw [h1]; exact hrow))
        refine ⟨?_, by rw [h1]; exact Nat.zero_le 1⟩
        rw [h1]
        exact h2
      · -- stale row: the first call refreshes, the second hits the new row
        have h1 := get_first_trade_timestamp_of_stale cfg ext cache wallet t1 f u hrow hf
        have hc : (get_first_trade_timestamp cfg ext cache wallet t1).cache wallet =
            some (extFirstTs (ext wallet), t1) := by
          rw [h1]
          exact db_set_wallet_first_ts_self cache wallet (extFirstTs (ext wallet)) t1
        have h2 := get_first_trade_timestamp_of_fresh cfg ext _ wallet t2
          (extFirstTs (ext wallet)) t1 hc (hu (extFirstTs (ext wallet)) t1 hc)
        refine ⟨?_, by rw [h1]⟩
        rw [h2, h1]
  refine ⟨?_, by rw [key.1], fun f u now h hf =>
    get_first_trade_timestamp_of_fresh cfg ext cache wallet now f u h hf⟩
  rw [key.1]
  simpa using key.2

/-- Witness for C4: resolving wallet `"w"` of `sampleCache` at times 3 and 5
makes zero external calls, returns the cached timestamp 50 both times, and
the explicit cache-hit clause holds at time 5. -/
theorem resolver_cached_within_ttl_witness :
    ((get_first_trade_timestamp defaultConfig extNoHistory sampleCache "w" 3).extCalls +
        (get_first_trade_timestamp defaultConfig extNoHistory
          (get_first_trade_timestamp defaultConfig extNoHistory sampleCache "w" 3).cache
          "w" 5).extCalls ≤ 1) ∧
    (get_first_trade_timestamp defaultConfig extNoHistory
        (get_first_trade_timestamp defaultConfig extNoHistory sampleCache "w" 3).cache
        "w" 5).first_ts =
      (get_first_trade_timestamp defaultConfig extNoHistory sampleCache "w" 3).first_ts ∧
    get_first_trade_timestamp defaultConfig extNoHistory sampleCache "w" 5 =
      ⟨some 50, sampleCache, 0⟩ := by
  have h := resolver_cached_within_ttl defaultConfig extNoHistory sampleCache "w" 3 5
    (by
      intro f u hfu
      have hr1 : get_first_trade_timestamp defaultConfig extNoHistory sampleCache "w" 3 =
          ⟨some 50, sampleCache, 0⟩ := rfl
      rw [hr1] at hfu
      have : some (some (50 : Int), (0 : Int)) = some (f, u) := by rw [← hfu]; rfl
      rcases this with ⟨⟩
      decide)
  exact ⟨h.1, h.2.1, h.2.2 (some 50) 0 5 rfl (by decide)⟩

/-! ### C6 — unknown wallet vs confirmed-no-history wallet -/

/-- **C6.** The cache read returns `(null, null)` for a wallet with no row,
which is distinct from a confirmed-no-history row that reads as
`(null, updated_ts)`; and a confirmed-no-history row within the TTL is a
cache hit — the resolver returns the cached null with zero external calls
and the cache untouched. -/
theorem wallet_cache_null_distinction (cfg : Config) (ext : ExtOracle)
    (cache : WalletCache) (wallet : String) (u now : Int) :
    (cache wallet = none → db_get_wallet_first_ts cache wallet = (none, none)) ∧
    (cache wallet = some (none, u) →
        db_get_wallet_first_ts cache wallet = (none, some u) ∧
        db_get_wallet_first_ts cache wallet ≠ (none, none)) ∧
    (cache wallet = some (none, u) →
        now - u < cfg.WALLET_TS_TTL_DAYS * 86400 →
        get_first_trade_timestamp cfg ext cache wallet now = ⟨none, cache, 0⟩) := by
  refine ⟨fun h => by simp [db_get_wallet_first_ts, h], fun h => ?_,
    fun h hf => get_first_trade_timestamp_of_fresh cfg ext cache wallet now none u h hf⟩
  constructor
  · simp [db_get_wallet_first_ts, h]
  · simp [db_get_wallet_first_ts, h]

/-- Witness for C6: an empty cache reads `(null, null)` for wallet `"wx"`,
while `sampleNullCache` reads `(null, 5)` for wallet `"wn"` and resolving
`"wn"` at time 10 is a hit returning the cached null with zero external
calls — even though every external request would fail. -/
theorem wallet_cache_null_distinction_witness :
    db_get_wallet_first_ts emptyStore.wallets "wx" = (none, none) ∧
    db_get_wallet_first_ts sampleNullCache "wn" = (none, some 5) ∧
    get_first_trade_timestamp defaultConfig extFailing sampleNullCache "wn" 10 =
      ⟨none, sampleNullCache, 0⟩ :=
  ⟨(wallet_cache_null_distinction defaultConfig extFailing emptyStore.wallets
      "wx" 0 0).1 rfl,
   ((wallet_cache_null_distinction defaultConfig extFailing sampleNullCache
      "wn" 5 10).2.1 rfl).1,
   (wallet_cache_null_distinction defaultConfig extFailing sampleNullCache
      "wn" 5 10).2.2 rfl (by decide)⟩

/-! ### C7 — resolver failure still persists a cache entry -/

/-- **C7.** When the external request for a wallet fails and the cache cannot
answer (no row, or a row past the TTL), the resolver returns null for this
resolution yet still persists `(null, now)` for the wallet, in exactly one
external call; and the run is not aborted — classification still yields one
decision per batch trade. -/
theorem resolver_failure_persists_null (cfg : Config) (ext : ExtOracle)
    (cache : WalletCache) (wallet : String) (now : Int)
    (hext : ext wallet = ExtResult.err)
    (hmiss : cache wallet = none ∨
      ∃ f u, cache wallet = some (f, u) ∧
        ¬(now - u < cfg.WALLET_TS_TTL_DAYS * 86400)) :
    (get_first_trade_timestamp cfg ext cache wallet now).first_ts = none ∧
    (get_first_trade_timestamp cfg ext cache wallet now).cache wallet =
      some (none, now) ∧
    (get_first_trade_timestamp cfg ext cache wallet now).extCalls = 1 ∧
    ∀ (st : Store) (b : List Trade),
      (classify cfg ext now st b).decisions.length = b.length := by
  have hrefresh : get_first_trade_timestamp cfg ext cache wallet now =
      ⟨extFirstTs (ext wallet),
        db_set_wallet_first_ts cache wallet (extFirstTs (ext wallet)) now, 1⟩ := by
    rcases hmiss with h | ⟨f, u, h, hf⟩
    · exact get_first_trade_timestamp_of_unknown cfg ext cache wallet now h
    · exact get_first_trade_timestamp_of_stale cfg ext cache wallet now f u h hf
  rw [hrefresh, hext]
  exact ⟨rfl, db_set_wallet_first_ts_self cache wallet none now, rfl,
    fun st b => classify_decisions_length cfg ext now b st⟩

/-- Witness for C7: with every request failing, resolving the unknown wallet
`"w"` at time 7 returns null, persists `(null, 7)` in one external call, and
the classify pass over a one-trade batch still yields one decision. -/
theorem resolver_failure_persists_null_witness :
    (get_first_trade_timestamp defaultConfig extFailing emptyStore.wallets
        "w" 7).first_ts = none ∧
    (get_first_trade_timestamp defaultConfig extFailing emptyStore.wallets
        "w" 7).cache "w" = some (none, 7) ∧
    (get_first_trade_timestamp defaultConfig extFailing emptyStore.wallets
        "w" 7).extCalls = 1 ∧
    (classify defaultConfig extFailing 7 emptyStore
        [sampleWhale]).decisions.length = 1 := by
  have h := resolver_failure_persists_null defaultConfig extFailing
    emptyStore.wallets "w" 7 rfl (Or.inl rfl)
  exact ⟨h.1, h.2.1, h.2.2.1, h.2.2.2 emptyStore [sampleWhale]⟩

/-! ### C8 — pruning removes exactly the stale rows -/

/-- **C8.** Pruning at `now_ts` keeps a `seen_trades` row exactly when it was
there before and its `seen_ts` is not strictly below `now_ts - retention`,
and keeps a `wallet_first_trade` row exactly when it was there before and its
`updated_ts` is not strictly below `now_ts - ttl`: the strictly-older rows
are deleted and every other row of both tables is unchanged. -/
theorem prune_removes_exactly_stale_rows (cfg : Config) (st : Store)
    (now_ts : Int) (k wallet : String) (ts u : Int) (f : Option Int) :
    ((pruneStore cfg st now_ts).seen k = some ts ↔
        st.seen k = some ts ∧
          ¬(ts < now_ts - cfg.SEEN_TRADE_RETENTION_DAYS * 86400)) ∧
    ((pruneStore cfg st now_ts).wallets wallet = some (f, u) ↔
        st.wallets wallet = some (f, u) ∧
          ¬(u < now_ts - cfg.WALLET_TS_TTL_DAYS * 86400)) := by
  constructor
  · simp only [pruneStore]
    rcases hs : st.seen k with _ | ts0 <;> simp only [hs]
    · simp
    · by_cases hc : ts0 < now_ts - cfg.SEEN_TRADE_RETENTION_DAYS * 86400
      · rw [if_pos hc]
        constructor
        · intro h
          cases h
        · rintro ⟨h1, h2⟩
          cases h1
          exact absurd hc h2
      · rw [if_neg hc]
        constructor
        · intro h
          cases h
          exact ⟨rfl, hc⟩
        · intro h
          exact h.1
  · simp only [pruneStore]
    rcases hs : st.wallets wallet with _ | ⟨f0, u0⟩ <;> simp only [hs]
    · simp
    · by_cases hc : u0 < now_ts - cfg.WALLET_TS_TTL_DAYS * 86400
      · rw [if_pos hc]
        constructor
        · intro h
          cases h
        · rintro ⟨h1, h2⟩
          cases h1
          exact absurd hc h2
      · rw [if_neg hc]
        constructor
        · intro h
          cases h
          exact ⟨rfl, hc⟩
        · intro h
          exact h.1

/-- A store with rows on both sides of the pruning boundary, pruned at
`now_ts = 1900000` (seen cutoff 85600, wallet cutoff 690400). -/
def samplePruneInput : Store where
  seen := fun k =>
    if k = "old" then some 0 else if k = "fresh" then some 1000000 else none
  wallets := fun w =>
    if w = "wold" then some (some 1, 0)
    else if w = "wfresh" then some (none, 1900000) else none

/-- Witness for C8: the rows at the young side of the boundary survive the
prune with their values unchanged. -/
theorem prune_removes_exactly_stale_rows_witness :
    (pruneStore defaultConfig samplePruneInput 1900000).seen "fresh" =
      some 1000000 ∧
    (pruneStore defaultConfig samplePruneInput 1900000).wallets "wfresh" =
      some (none, 1900000) :=
  ⟨(prune_removes_exactly_stale_rows defaultConfig samplePruneInput 1900000
      "fresh" "wfresh" 1000000 1900000 none).1.mpr ⟨rfl, by decide⟩,
   (prune_removes_exactly_stale_rows defaultConfig samplePruneInput 1900000
      "fresh" "wfresh" 1000000 1900000 none).2.mpr ⟨rfl, by decide⟩⟩

/-! ### C9 — USD value computation -/

/-- Counterexample to C9 as stated: a trade whose `usdcSize` field *is
present* (the string `"0"`, parsing to zero) does not get that field as its
USD value — `value = usdc_size or (size * price)` falls through on the falsy
`Decimal("0")` and computes `size × price = 5` instead of 0. -/
theorem present_zero_usdc_size_not_used :
    ({ usdcSize := some "0", size := some "10", price := some "0.5" } :
        Trade).usdcSize = some "0" ∧
    safe_decimal (some "0") = 0 ∧
    tradeValue { usdcSize := some "0", size := some "10", price := some "0.5" }
      = 5 := by
  refine ⟨rfl, by decide, ?_⟩
  have h1 : safe_decimal (some "10") = 10 := by decide
  have h2 : safe_decimal (some "0.5") = mkRat 1 2 := by decide
  have h0 : safe_decimal (some "0") = 0 := by decide
  simp only [tradeValue]
  norm_num [h0, h1, h2, Rat.mkRat_eq_div]

/-- **C9 (amended).** The USD value is the pre-computed `usdcSize` field when
it is present and parses to a nonzero value, and `size × price` otherwise;
missing or unparseable numeric fields (null, empty string, non-numeric
string) parse as zero rather than raising; for `usdcSize` absent,
`size = "1000"`, `price = "0.08"` the value is exactly 80.00; and no single
malformed record aborts the batch — classification always yields exactly one
decision per input trade. -/
theorem trade_value_fallback (cfg : Config) (ext : ExtOracle) (now : Int) :
    safe_decimal none = 0 ∧
    safe_decimal (some "") = 0 ∧
    safe_decimal (some "None") = 0 ∧
    safe_decimal (some "not-a-number") = 0 ∧
    tradeValue { usdcSize := none, size := some "1000", price := some "0.08" }
      = 80 ∧
    ∀ (st : Store) (b : List Trade),
      (classify cfg ext now st b).decisions.length = b.length := by
  refine ⟨rfl, by decide, by decide, by decide, ?_,
    fun st b => classify_decisions_length cfg ext now b st⟩
  have h1 : safe_decimal (some "1000") = 1000 := by decide
  have h2 : safe_decimal (some "0.08") = mkRat 8 100 := by decide
  have h0 : safe_decimal (none : Option String) = 0 := rfl
  simp only [tradeValue]
  norm_num [h0, h1, h2, Rat.mkRat_eq_div]

/-! ### Alert-decision lemmas -/

theorem tradeAlert_some_delta (cfg : Config) (value delta : ℚ) (is_new : Bool)
    (a : AlertTier) (h : tradeAlert cfg value delta is_new = some a) :
    |delta| ≥ cfg.MIN_DELTA_THRESHOLD := by
  by_contra hd
  simp [tradeAlert, hd] at h

theorem tradeAlert_newUser_below_large (cfg : Config) (value delta : ℚ)
    (is_new : Bool)
    (h : tradeAlert cfg value delta is_new = some AlertTier.newUser) :
    value < cfg.LARGE_TRADE_THRESHOLD := by
  unfold tradeAlert at h
  split_ifs at h with h1 h2 h3
  · cases h
  · exact lt_of_not_ge h2

theorem tradeAlert_whale (cfg : Config) (value delta : ℚ) (is_new : Bool)
    (hd : |delta| ≥ cfg.MIN_DELTA_THRESHOLD)
    (hv : value ≥ cfg.LARGE_TRADE_THRESHOLD) :
    tradeAlert cfg value delta is_new = some AlertTier.whale := by
  simp [tradeAlert, hd, hv]

theorem processTrade_decision_eq (cfg : Config) (ext : ExtOracle) (now : Int)
    (st : Store) (t : Trade)
    (h1 : db_seen_trade st (tradeKey t) = false)
    (h2 : walletMissing t = false)
    (h3 : keywordHit cfg (slugLower t) (titleLower t) = true) :
    (processTrade cfg ext now st t).decision =
      tradeAlert cfg (tradeValue t) (tradeDelta t)
        (isNewAccount cfg now
          (get_first_trade_timestamp cfg ext st.wallets
            (t.proxyWallet.getD "") now).first_ts) := by
  simp [processTrade, h1, h2, h3]

theorem processTrade_decision_some (cfg : Config) (ext : ExtOracle) (now : Int)
    (st : Store) (t : Trade) (a : AlertTier)
    (h : (processTrade cfg ext now st t).decision = some a) :
    ∃ is_new, tradeAlert cfg (tradeValue t) (tradeDelta t) is_new = some a := by
  by_cases h1 : db_seen_trade st (tradeKey t)
  · rw [processTrade_of_seen cfg ext now st t h1] at h
    cases h
  · by_cases h2 : walletMissing t
    · rw [processTrade_of_walletMissing cfg ext now st t h2] at h
      cases h
    · by_cases h3 : keywordHit cfg (slugLower t) (titleLower t)
      · rw [processTrade_decision_eq cfg ext now st t
          (Bool.not_eq_true _ ▸ h1) (Bool.not_eq_true _ ▸ h2) h3] at h
        exact ⟨_, h⟩
      · have hnone : (processTrade cfg ext now st t).decision = none := by
          simp [processTrade, h1, h2, h3]
        rw [hnone] at h
        cases h

/-! ### C10 — alert-tier selection -/

/-- **C10.** The decision for one processed trade is a single optional tier
(at most one alert); no tier fires unless the absolute position delta reaches
`MIN_DELTA_THRESHOLD`; on an unseen, walleted, keyword-matching trade whose
delta gate passes and whose value reaches `LARGE_TRADE_THRESHOLD`, the whale
tier fires regardless of account age; and the new-account tier only fires for
values strictly below `LARGE_TRADE_THRESHOLD`. -/
theorem alert_tier_selection (cfg : Config) (ext : ExtOracle) (now : Int)
    (st : Store) (t : Trade) :
    (∀ a, (processTrade cfg ext now st t).decision = some a →
        |tradeDelta t| ≥ cfg.MIN_DELTA_THRESHOLD) ∧
    ((processTrade cfg ext now st t).decision = some AlertTier.newUser →
        tradeValue t < cfg.LARGE_TRADE_THRESHOLD) ∧
    (db_seen_trade st (tradeKey t) = false → walletMissing t = false →
        keywordHit cfg (slugLower t) (titleLower t) = true →
        |tradeDelta t| ≥ cfg.MIN_DELTA_THRESHOLD →
        tradeValue t ≥ cfg.LARGE_TRADE_THRESHOLD →
        (processTrade cfg ext now st t).decision = some AlertTier.whale) := by
  refine ⟨?_, ?_, ?_⟩
  · intro a h
    obtain ⟨is_new, hn⟩ := processTrade_decision_some cfg ext now st t a h
    exact tradeAlert_some_delta cfg _ _ is_new a hn
  · intro h
    obtain ⟨is_new, hn⟩ :=
      processTrade_decision_some cfg ext now st t AlertTier.newUser h
    exact tradeAlert_newUser_below_large cfg _ _ is_new hn
  · intro h1 h2 h3 hd hv
    rw [processTrade_decision_eq cfg ext now st t h1 h2 h3]
    exact tradeAlert_whale cfg _ _ _ hd hv

/-- Witness for C10: `sampleWhale` (value 40000, delta 6000) fires the whale
tier, and the delta gate is indeed satisfied at that decision. -/
theorem alert_tier_selection_witness :
    (processTrade defaultConfig extNoHistory 1000 emptyStore
        sampleWhale).decision = some AlertTier.whale ∧
    |tradeDelta sampleWhale| ≥ defaultConfig.MIN_DELTA_THRESHOLD := by
  have h := alert_tier_selection defaultConfig extNoHistory 1000 emptyStore
    sampleWhale
  have hw := h.2.2 rfl rfl (by decide) (by decide) (by decide)
  exact ⟨hw, h.1 AlertTier.whale hw⟩

/-! ### C5 — classification of a never-seen wallet -/

/-- Counterexample to C5 as stated: `sampleBelowDelta` comes from a wallet
with no cache row whose external lookup confirms no history; its value 9000
exceeds the 8000 new-account threshold and the cache does end up holding
`(null, now)` — yet *no* alert is produced, because its position delta 10 is
below `MIN_DELTA_THRESHOLD = 5000` (monitor.py line 203 gates both tiers). -/
theorem new_wallet_high_value_no_alert_below_delta :
    emptyStore.wallets "w5" = none ∧
    tradeValue sampleBelowDelta > defaultConfig.NEW_ACCOUNT_VALUE_THRESHOLD ∧
    ((processTrade defaultConfig extNoHistory 1000 emptyStore
        sampleBelowDelta).store).wallets "w5" = some (none, 1000) ∧
    (processTrade defaultConfig extNoHistory 1000 emptyStore
        sampleBelowDelta).decision = none := by
  decide

/-- **C5 (amended).** For a wallet with no cache row that the external source
confirms has no history: the resolver returns a null age, the classifier
computes `is_new_account = true` (null age counts as new), the wallet cache
afterwards holds `(null, now)`, and — provided the absolute position delta
meets `MIN_DELTA_THRESHOLD` — a trade whose USD value strictly exceeds
`NEW_ACCOUNT_VALUE_THRESHOLD` produces an alert. -/
theorem new_wallet_classified_and_alerted (cfg : Config) (ext : ExtOracle)
    (now : Int) (st : Store) (t : Trade) (wallet : String)
    (hpw : t.proxyWallet = some wallet)
    (hw : walletMissing t = false)
    (hseen : db_seen_trade st (tradeKey t) = false)
    (hkw : keywordHit cfg (slugLower t) (titleLower t) = true)
    (hcache : st.wallets wallet = none)
    (hext : ext wallet = ExtResult.ok none)
    (hval : tradeValue t > cfg.NEW_ACCOUNT_VALUE_THRESHOLD)
    (hdelta : |tradeDelta t| ≥ cfg.MIN_DELTA_THRESHOLD) :
    (get_first_trade_timestamp cfg ext st.wallets wallet now).first_ts = none ∧
    isNewAccount cfg now none = true ∧
    ((processTrade cfg ext now st t).store).wallets wallet = some (none, now) ∧
    ((processTrade cfg ext now st t).decision).isSome = true := by
  have hres : get_first_trade_timestamp cfg ext st.wallets wallet now =
      ⟨none, db_set_wallet_first_ts st.wallets wallet none now, 1⟩ := by
    have := get_first_trade_timestamp_of_unknown cfg ext st.wallets wallet now hcache
    rw [this, hext]
    rfl
  have hstep : processTrade cfg ext now st t =
      ⟨db_mark_trade
          { st with wallets := db_set_wallet_first_ts st.wallets wallet none now }
          (tradeKey t) (t.timestamp.getD now),
        tradeAlert cfg (tradeValue t) (tradeDelta t) (isNewAccount cfg now none),
        1⟩ := by
    simp only [processTrade, hseen, hw, hkw, hpw, Option.getD_some, hres,
      Bool.false_eq_true, if_false, if_true]
  refine ⟨by rw [hres], by simp [isNewAccount], ?_, ?_⟩
  · rw [hstep]
    exact db_set_wallet_first_ts_self st.wallets wallet none now
  · rw [hstep]
    unfold tradeAlert
    rw [if_pos hdelta]
    by_cases hlarge : tradeValue t ≥ cfg.LARGE_TRADE_THRESHOLD
    · rw [if_pos hlarge]
      rfl
    · rw [if_neg hlarge, if_pos ⟨hval, by simp [isNewAccount]⟩]
      rfl

/-- Witness for C5 (amended): `sampleNewUser` (fresh wallet `"wn"`, value
9000, delta 6000) is classified with a null age, `is_new_account = true`, the
cache row `(null, 1000)`, and an alert is produced. -/
theorem new_wallet_classified_and_alerted_witness :
    (get_first_trade_timestamp defaultConfig extNoHistory emptyStore.wallets
        "wn" 1000).first_ts = none ∧
    isNewAccount defaultConfig 1000 none = true ∧
    ((processTrade defaultConfig extNoHistory 1000 emptyStore
        sampleNewUser).store).wallets "wn" = some (none, 1000) ∧
    ((processTrade defaultConfig extNoHistory 1000 emptyStore
        sampleNewUser).decision).isSome = true :=
  new_wallet_classified_and_alerted defaultConfig extNoHistory 1000 emptyStore
    sampleNewUser "wn" rfl rfl rfl (by decide) rfl rfl (by decide) (by decide)

end Monitor
